import Mathlib

/-!
Verification development for the `nest-register-user-app` repository: a
user-account service with registration (`UsersService.register`), login
(`AuthService.login`), field validation (class-validator decorators on
`CreateUserDto` driven by the global `ValidationPipe` configured in
`src/main.ts`), and JWT-based authenticated profile fetch.

The embedding below translates the TypeScript source into Lean:
stateful/asynchronous code becomes explicit state passing, thrown
exceptions become `Except` values, and the external collaborators
(mongoose store, bcrypt, JWT service) are modelled at the granularity the
source uses them.
-/

namespace UserApp

/-- HTTP-level exceptions thrown by the service layer.  `conflict` is
`ConflictException`, `badRequest` is `BadRequestException`, `unauthorized`
is `UnauthorizedException`; each carries its message string, which is the
only payload the caller can observe. -/
inductive HttpError where
  | conflict (msg : String)
  | badRequest (msg : String)
  | unauthorized (msg : String)
deriving DecidableEq, Repr

/-- An account record as persisted by the mongoose `User` model:
`_id` (stringified), `name`, `email`, and the stored `password` field
(which holds the bcrypt hash after the schema's pre-save middleware ran). -/
structure Account where
  id : String
  name : String
  email : String
  password : String
deriving DecidableEq, Repr

/-! ## Validation engine

`src/main.ts` installs a global `ValidationPipe` with
`whitelist: true, forbidNonWhitelisted: true, stopAtFirstError: true,
groups: ['existence', 'format']`.  When class-validator is invoked with a
non-empty `groups` list, only constraints whose decorator options carry a
matching group run; a group-less constraint is skipped (`always: true` is
the escape hatch).  The decorators on `CreateUserDto` carry no `groups` —
unlike `LoginDto`'s decorators and the unused `StrongPassword` decorator,
which are tagged with `['existence', 'format']` — so none of
`CreateUserDto`'s constraints survives the filter, and class-validator's
`forbidUnknownValues` guard then rejects every registration body with its
single generic unknown-value error.

The individual constraints are still translated below (they are what the
DTO declares, and what would run did they carry groups); the lists are in
registration order (TypeScript applies stacked property decorators
bottom-up), and under `stopAtFirstError: true` the first failing
surviving constraint of a property is the one reported.
-/

/-- JS `String.prototype.length` (UTF-16 units; all inputs here are ASCII,
where it coincides with the character count). -/
def jsLength (s : String) : Nat := s.data.length

/-- class-validator `isNotEmpty`: the value is not `''`, `null` or
`undefined`.  A missing field is `none`. -/
def isNotEmpty : Option String → Bool
  | none => false
  | some s => s ≠ ""

/-- class-validator `isString`: in this embedding every present value is a
string, so only absence fails. -/
def isString : Option String → Bool
  | none => false
  | some _ => true

/-- class-validator `minLength`: string of length at least `n`. -/
def minLength (n : Nat) : Option String → Bool
  | none => false
  | some s => n ≤ jsLength s

/-- The regex `/(?=.*[a-zA-Z])/` of `CreateUserDto`: at least one ASCII
letter. -/
def hasLetter (s : String) : Bool := s.data.any Char.isAlpha

/-- The regex `/(?=.*\d)/` of `CreateUserDto`: at least one ASCII digit. -/
def hasDigit (s : String) : Bool := s.data.any Char.isDigit

/-- The special-character set of `CreateUserDto`'s third `Matches` regex. -/
def specialChars : List Char :=
  ['!', '@', '#', '$', '%', '^', '&', '*', '(', ')', '_', '+', '-', '=',
   '[', ']', '\x7b', '\x7d', ';', '\x27', ':', '\x22', '\\', '|', ',', '.',
   '<', '>', '/', '?']

/-- The regex matching at least one special character. -/
def hasSpecial (s : String) : Bool := s.data.any (fun c => specialChars.contains c)

/-- class-validator `matches` on an Option value: absent values fail. -/
def matchesOn (p : String → Bool) : Option String → Bool
  | none => false
  | some s => p s

/-- One class-validator constraint on a field: its check, the message it
contributes on failure, and the `groups` its decorator options carry. -/
structure FieldRule where
  check : Option String → Bool
  message : String
  groups : List String

/-- All failing constraints of one field, in execution order (class-
validator validates every constraint of a property and records each
failure). -/
def ruleFailures (rules : List FieldRule) (v : Option String) : List String :=
  (rules.filter (fun r => !(r.check v))).map (fun r => r.message)

/-- The messages reported for one field under `stopAtFirstError: true`:
only the first failing constraint is kept. -/
def fieldMessages (rules : List FieldRule) (v : Option String) : List String :=
  (ruleFailures rules v).take 1

/-- The `name` constraints of `CreateUserDto`, in registration
(bottom-up) order: `MinLength(3)`, `IsString`, `IsNotEmpty`. -/
def nameRules : List FieldRule :=
  [⟨minLength 3, "Name must be at least 3 characters long", []⟩,
   ⟨isString, "Name must be a string", []⟩,
   ⟨isNotEmpty, "Name cannot be empty", []⟩]

/-- Modelled from the spec: the external `validator.js` `isEmail`
predicate behind the `IsEmail` decorator (the library is not part of this
repository).  Shallow model: exactly one `@`, non-empty local part,
non-empty domain containing a dot, no spaces. -/
def isEmailModel (s : String) : Bool :=
  let cs := s.data
  let local_ := cs.takeWhile (fun c => c ≠ '@')
  let domain := (cs.dropWhile (fun c => c ≠ '@')).drop 1
  (cs.count '@' == 1) && (!local_.isEmpty) && (!domain.isEmpty) &&
    domain.contains '.' && (!cs.contains ' ')

/-- The `email` constraints of `CreateUserDto`, in registration order:
`IsEmail`, `IsNotEmpty`. -/
def emailRules : List FieldRule :=
  [⟨matchesOn isEmailModel, "Please provide a valid email address", []⟩,
   ⟨isNotEmpty, "Email cannot be empty", []⟩]

/-- The `password` constraints of `CreateUserDto`, in registration
(bottom-up) order: the three `Matches` rules (special character, digit,
letter), `MinLength(8)`, `IsString`, `IsNotEmpty`. -/
def passwordRules : List FieldRule :=
  [⟨matchesOn hasSpecial, "Password must contain at least one special character", []⟩,
   ⟨matchesOn hasDigit, "Password must contain at least one number", []⟩,
   ⟨matchesOn hasLetter, "Password must contain at least one letter", []⟩,
   ⟨minLength 8, "Password must be at least 8 characters long", []⟩,
   ⟨isString, "Password must be a string", []⟩,
   ⟨isNotEmpty, "Password cannot be empty", []⟩]

/-- The property names `CreateUserDto` declares (used to say when an
input field is unknown to the schema). -/
def declaredFields : List String := ["name", "email", "password"]

/-- Reading a field out of the JSON request body. -/
def lookupField (input : List (String × String)) (k : String) : Option String :=
  (input.find? (fun kv => kv.1 == k)).map (fun kv => kv.2)

/-- One validation error as produced by class-validator: the offending
property (absent for the generic unknown-value error, whose
`ValidationError.property` is undefined) and its messages. -/
structure ValidationErr where
  property : Option String
  messages : List String
deriving DecidableEq, Repr

/-- The `groups` the global pipe of `src/main.ts` passes to
class-validator. -/
def pipeGroups : List String := ["existence", "format"]

/-- class-validator's groups filter (`getTargetValidationMetadatas`):
with a non-empty requested-groups list, only constraints whose own
`groups` intersect it survive; a constraint with no groups is skipped.
Without requested groups every constraint runs. -/
def survivingRules (requested : List String) (rules : List FieldRule) : List FieldRule :=
  if requested.isEmpty then rules
  else rules.filter (fun r => r.groups.any (fun g => requested.contains g))

/-- A validated class property together with its declared constraints. -/
structure FieldSchema where
  field : String
  rules : List FieldRule

/-- The schema `CreateUserDto` declares: three properties, each with its
decorator constraints. -/
def createUserSchema : List FieldSchema :=
  [⟨"name", nameRules⟩, ⟨"email", emailRules⟩, ⟨"password", passwordRules⟩]

/-- The single generic error class-validator's `forbidUnknownValues`
guard emits when no constraint metadata of the validated class survives
the groups filter. -/
def unknownValueErr : ValidationErr :=
  ⟨none, ["an unknown value was passed to the validate function"]⟩

/-- class-validator `validate()` under the `src/main.ts` pipe options
(`whitelist`, `forbidNonWhitelisted`, `stopAtFirstError`, `groups`).
The groups filter runs first; if no constraint of the class survives it,
the `forbidUnknownValues` guard rejects the whole input with the generic
unknown-value error and nothing else runs.  Otherwise each property
reports its first failing surviving constraint (`stopAtFirstError`), and
input properties with no surviving metadata are rejected by the
whitelist (`forbidNonWhitelisted`). -/
def validateWith (schema : List FieldSchema) (requested : List String)
    (input : List (String × String)) : List ValidationErr :=
  let active := (schema.map (fun fs =>
      FieldSchema.mk fs.field (survivingRules requested fs.rules))).filter
    (fun fs => !fs.rules.isEmpty)
  if active.isEmpty then [unknownValueErr]
  else
    let fieldErrs := (active.map (fun fs =>
        ValidationErr.mk (some fs.field)
          (fieldMessages fs.rules (lookupField input fs.field)))).filter
      (fun e => !e.messages.isEmpty)
    let whitelist := (input.filter
        (fun kv => !(active.any (fun fs => fs.field == kv.1)))).map
      (fun kv => ValidationErr.mk (some kv.1)
        ["property " ++ kv.1 ++ " should not exist"])
    fieldErrs ++ whitelist

/-- Validation of a registration body by the global pipe of `src/main.ts`
against `CreateUserDto`.  None of the DTO's group-less constraints
survives `pipeGroups`, so every body is rejected with the generic
unknown-value error. -/
def validateCreateUser (input : List (String × String)) : List ValidationErr :=
  validateWith createUserSchema pipeGroups input

/-! ## Password hashing (bcrypt) -/

/-- Modelled from the spec: the salted one-way bcrypt hash applied by the
`User` schema's pre-save middleware (the schema file is not under `src/`;
the test helpers document that "middleware will hash it").  Shallow model:
the bcrypt output format prefixes a `$2b$10$` header, so the hash is
always longer than — and in particular never equal to — the plaintext. -/
def bcryptHash (plain : String) : String := "$2b$10$" ++ plain

/-- `bcrypt.compare(plain, hash)` as used by `AuthService.login`: checks
whether `hash` is the bcrypt hash of `plain`. -/
def bcryptCompare (plain hash : String) : Bool := bcryptHash plain == hash

/-! ## Registration flow (`UsersService.register`) -/

/-- Errors the mongoose store can fail with: a duplicate-key uniqueness
violation (Mongo error 11000) or any other store error. -/
inductive DbErr where
  | duplicateKey
  | other (detail : String)
deriving DecidableEq, Repr

/-- The behaviour of the store adapter during one `register` call: the
outcome of `userModel.findOne({email})` and the outcome of
`newUser.save()`.  A `.error` value models the promise rejecting. -/
structure StoreOps where
  findOne : Except DbErr (Option Account)
  save : Except DbErr Unit

/-- `UsersService.register` control flow over an arbitrary store
behaviour.  The `try/catch` of the source becomes the `Except` cases: a
`ConflictException` thrown inside the `try` is rethrown by the `catch`,
while every other failure — including a duplicate-key error from
`save()` — is replaced by `BadRequestException('Could not register
user')`. -/
def register (ops : StoreOps) : Except HttpError String :=
  match ops.findOne with
  | .error _ => .error (.badRequest "Could not register user")
  | .ok (some _) => .error (.conflict "Email already registered")
  | .ok none =>
    match ops.save with
    | .error _ => .error (.badRequest "Could not register user")
    | .ok _ => .ok "User registered successfully"

/-- The post-validation registration body handed to
`UsersService.register`. -/
structure CreateUserDto where
  name : String
  email : String
  password : String
deriving DecidableEq, Repr

/-- `userModel.findOne({email})` over an in-memory store. -/
def findByEmail (db : List Account) (email : String) : Option Account :=
  db.find? (fun u => u.email == email)

/-- The account record persisted for a registration: the schema's
pre-save middleware replaces the plaintext password with its bcrypt hash
(modelled from the spec, see `bcryptHash`), and the store assigns an id. -/
def storedAccount (newId : String) (dto : CreateUserDto) : Account :=
  { id := newId, name := dto.name, email := dto.email,
    password := bcryptHash dto.password }

/-- `UsersService.register` against an in-memory store on the non-failing
adapter paths: the pre-insert uniqueness check via `findOne`, then
`newUser.save()` appending the hashed record.  Returns the service result
together with the store contents afterwards. -/
def registerMem (db : List Account) (newId : String) (dto : CreateUserDto) :
    Except HttpError String × List Account :=
  match findByEmail db dto.email with
  | some _ => (.error (.conflict "Email already registered"), db)
  | none => (.ok "User registered successfully", db ++ [storedAccount newId dto])

/-! ## Token service (JWT) -/

/-- The JWT payload built by `AuthService.login`:
`{ sub: user._id.toString(), email: user.email }`. -/
structure Claims where
  sub : String
  email : String
deriving DecidableEq, Repr

/-- Modelled from the spec: a signed session token issued by the Token
Service (`JwtService` configuration is not under `src/`).  A JWT carries
its payload in the clear, a signature over the payload, and an expiry
timestamp. -/
structure Token where
  claims : Claims
  sig : String
  exp : Nat
deriving DecidableEq, Repr

/-- Modelled from the spec: the signature over a payload under the
server-held secret key. -/
def signPayload (secret : String) (c : Claims) : String :=
  secret ++ "." ++ c.sub ++ "." ++ c.email

/-- Modelled from the spec: `issue(claims) -> token`, signing the claims
and stamping an expiry `ttl` seconds from `now`. -/
def issueToken (secret : String) (now ttl : Nat) (c : Claims) : Token :=
  { claims := c, sig := signPayload secret c, exp := now + ttl }

/-- Outcomes of token verification, per the spec's error taxonomy. -/
inductive AuthFailure where
  | invalidToken
  | expiredToken
deriving DecidableEq, Repr

/-- Modelled from the spec: `verify(token) -> claims | AuthFailure` —
signature checked first (`InvalidToken` on mismatch), then expiry
(`ExpiredToken` when the expiry is in the past). -/
def verifyToken (secret : String) (now : Nat) (t : Token) : Except AuthFailure Claims :=
  if t.sig ≠ signPayload secret t.claims then .error .invalidToken
  else if t.exp < now then .error .expiredToken
  else .ok t.claims

/-! ## Authentication flow (`AuthService.login`) -/

/-- The login request body. -/
structure LoginDto where
  email : String
  password : String
deriving DecidableEq, Repr

/-- A successful login response: `{ accessToken }`. -/
structure LoginResult where
  accessToken : Token
deriving DecidableEq, Repr

/-- `AuthService.login`: look up the account by email
(`UnauthorizedException('Invalid credentials')` when absent), compare the
password with `bcrypt.compare` (same exception on mismatch), then sign
and return `{ accessToken: jwtService.sign({sub, email}) }`. -/
def login (db : List Account) (secret : String) (now ttl : Nat)
    (dto : LoginDto) : Except HttpError LoginResult :=
  match findByEmail db dto.email with
  | none => .error (.unauthorized "Invalid credentials")
  | some user =>
    if !bcryptCompare dto.password user.password then
      .error (.unauthorized "Invalid credentials")
    else
      .ok { accessToken := issueToken secret now ttl
              { sub := user.id, email := user.email } }

/-! ## Authenticated profile fetch -/

/-- The profile returned for `GET /auth/me` / `GET /users/me`. -/
structure Profile where
  name : String
  email : String
deriving DecidableEq, Repr

/-- Modelled from the spec: `UsersService.findById` (called by both
`getProfile` controllers but absent from `src/`), returning "the
account's `name`/`email` only, never `passwordHash`". -/
def findById (db : List Account) (uid : String) : Option Profile :=
  (db.find? (fun u => u.id == uid)).map (fun u => { name := u.name, email := u.email })

/-- The JSON serialization of a profile response as key/value pairs. -/
def serializeProfile (p : Profile) : List (String × String) :=
  [("name", p.name), ("email", p.email)]

/-- The guarded profile endpoint: the `JwtAuthGuard` verifies the bearer
token (modelled from the spec's Token Service) and, on success, the
controller returns `usersService.findById(req.user.userId)` where
`userId` is the token's `sub` claim. -/
def getProfile (db : List Account) (secret : String) (now : Nat) (t : Token) :
    Except AuthFailure (Option Profile) :=
  match verifyToken secret now t with
  | .error e => .error e
  | .ok c => .ok (findById db c.sub)

/-! ## The four password-policy format rules, named -/

/-- The four format-stage password-policy rules of `CreateUserDto`. -/
inductive PasswordFormatRule where
  | length
  | letter
  | digit
  | special
deriving DecidableEq, Repr

/-- Whether a password satisfies one of the four format rules. -/
def PasswordFormatRule.holds (v : String) : PasswordFormatRule → Bool
  | .length => minLength 8 (some v)
  | .letter => hasLetter v
  | .digit => hasDigit v
  | .special => hasSpecial v

/-- The message each format rule contributes on failure. -/
def PasswordFormatRule.message : PasswordFormatRule → String
  | .length => "Password must be at least 8 characters long"
  | .letter => "Password must contain at least one letter"
  | .digit => "Password must contain at least one number"
  | .special => "Password must contain at least one special character"

/-- All four format rules. -/
def allFormatRules : List PasswordFormatRule :=
  [.length, .letter, .digit, .special]

/-- `v` violates exactly the rule `r` among the four format rules. -/
def violatesOnly (v : String) (r : PasswordFormatRule) : Bool :=
  match r with
  | .length => !(minLength 8 (some v)) && hasLetter v && hasDigit v && hasSpecial v
  | .letter => minLength 8 (some v) && !(hasLetter v) && hasDigit v && hasSpecial v
  | .digit => minLength 8 (some v) && hasLetter v && !(hasDigit v) && hasSpecial v
  | .special => minLength 8 (some v) && hasLetter v && hasDigit v && !(hasSpecial v)

/-- The messages of the format rules a password violates. -/
def violatedFormatMessages (v : String) : List String :=
  (allFormatRules.filter (fun q => !(q.holds v))).map PasswordFormatRule.message

/-- A one-account store shared by the concrete witnesses below. -/
def demoDb : List Account :=
  [{ id := "1", name := "Test User", email := "test@example.com",
     password := bcryptHash "Password123!" }]

/-! ## Theorems -/

/-- C10: for every store-adapter behaviour, `UsersService.register` has
exactly three outcomes — success `{message: 'User registered
successfully'}`, the conflict error `'Email already registered'`, or the
generic error `'Could not register user'`; no other value and no internal
store-error detail ever escapes. -/
theorem register_outcomes_closed (ops : StoreOps) :
    register ops = .ok "User registered successfully" ∨
    register ops = .error (.conflict "Email already registered") ∨
    register ops = .error (.badRequest "Could not register user") := by
  rcases ops with ⟨fo, sv⟩
  rcases fo with e | o
  · right; right; rfl
  · rcases o with _ | u
    · rcases sv with e | u
      · right; right; rfl
      · left; rfl
    · right; left; rfl

/-- C3 counterexample: when the pre-insert uniqueness check passes but
`save()` fails with a duplicate-key violation, `register` reports the
generic `BadRequestException('Could not register user')`, not the
`ConflictException('Email already registered')` the claim requires. -/
theorem register_saveDuplicate_cex :
    register ⟨.ok none, .error .duplicateKey⟩ =
      .error (.badRequest "Could not register user") ∧
    register ⟨.ok none, .error .duplicateKey⟩ ≠
      .error (.conflict "Email already registered") := by
  constructor
  · rfl
  · intro h
    simp [register] at h

/-- C3 amended: a create-time duplicate-key violation from the store is
reported as the generic `RegistrationFailed` outcome
(`BadRequestException('Could not register user')`), the same as any other
store failure — the `catch` block only rethrows `ConflictException`, and
a Mongo duplicate-key error is not one. -/
theorem register_saveDuplicate_generic (ops : StoreOps)
    (h1 : ops.findOne = .ok none) (h2 : ops.save = .error .duplicateKey) :
    register ops = .error (.badRequest "Could not register user") := by
  unfold register
  rw [h1, h2]

/-- C3 amended, witnessed at a concrete adapter behaviour. -/
theorem register_saveDuplicate_generic_witness :
    register ⟨.ok none, .error DbErr.duplicateKey⟩ =
      .error (.badRequest "Could not register user") :=
  register_saveDuplicate_generic ⟨.ok none, .error DbErr.duplicateKey⟩ rfl rfl

/-- C1: a login whose email lookup fails and a login that finds an
account but fails the bcrypt comparison produce the identical
`UnauthorizedException('Invalid credentials')` outcome — same error
variant, same message — so the response does not reveal whether the email
is registered. -/
theorem login_enumeration_resistance (db : List Account) (secret : String)
    (now ttl : Nat) (r1 r2 : LoginDto) (u : Account)
    (h1 : findByEmail db r1.email = none)
    (h2 : findByEmail db r2.email = some u)
    (h3 : bcryptCompare r2.password u.password = false) :
    login db secret now ttl r1 = .error (.unauthorized "Invalid credentials") ∧
    login db secret now ttl r2 = .error (.unauthorized "Invalid credentials") ∧
    login db secret now ttl r1 = login db secret now ttl r2 := by
  have e1 : login db secret now ttl r1 = .error (.unauthorized "Invalid credentials") := by
    simp [login, h1]
  have e2 : login db secret now ttl r2 = .error (.unauthorized "Invalid credentials") := by
    simp [login, h2, h3]
  exact ⟨e1, e2, e1.trans e2.symm⟩

/-- C1 witnessed: one registered account, one login with an unknown
email, one with the right email but the wrong password — both produce the
same `Invalid credentials` error. -/
theorem login_enumeration_resistance_witness :
    login demoDb "secret" 0 3600 ⟨"nonexistent@example.com", "Password123!"⟩ =
      .error (.unauthorized "Invalid credentials") ∧
    login demoDb "secret" 0 3600 ⟨"test@example.com", "WrongPassword123!"⟩ =
      .error (.unauthorized "Invalid credentials") ∧
    login demoDb "secret" 0 3600 ⟨"nonexistent@example.com", "Password123!"⟩ =
      login demoDb "secret" 0 3600 ⟨"test@example.com", "WrongPassword123!"⟩ :=
  login_enumeration_resistance demoDb "secret" 0 3600
    ⟨"nonexistent@example.com", "Password123!"⟩
    ⟨"test@example.com", "WrongPassword123!"⟩
    ⟨"1", "Test User", "test@example.com", bcryptHash "Password123!"⟩
    (by decide) (by decide) (by decide)

/-- C8: a successful login signs a payload that is exactly
`{sub: account.id, email: account.email}` and returns it as the
`accessToken` of the result record. -/
theorem login_issues_exact_claims (db : List Account) (secret : String)
    (now ttl : Nat) (dto : LoginDto) (u : Account)
    (hfind : findByEmail db dto.email = some u)
    (hcmp : bcryptCompare dto.password u.password = true) :
    login db secret now ttl dto =
      .ok ⟨issueToken secret now ttl ⟨u.id, u.email⟩⟩ ∧
    (issueToken secret now ttl ⟨u.id, u.email⟩).claims = ⟨u.id, u.email⟩ := by
  constructor
  · simp [login, hfind, hcmp]
  · rfl

/-- C8 witnessed at a concrete store and request. -/
theorem login_issues_exact_claims_witness :
    login demoDb "secret" 0 3600 ⟨"test@example.com", "Password123!"⟩ =
      .ok ⟨issueToken "secret" 0 3600 ⟨"1", "test@example.com"⟩⟩ ∧
    (issueToken "secret" 0 3600 ⟨"1", "test@example.com"⟩).claims =
      ⟨"1", "test@example.com"⟩ :=
  login_issues_exact_claims demoDb "secret" 0 3600
    ⟨"test@example.com", "Password123!"⟩
    ⟨"1", "Test User", "test@example.com", bcryptHash "Password123!"⟩
    (by decide) (by decide)

/-- The bcrypt hash is never the plaintext: its `$2b$10$` header makes it
seven characters longer. -/
theorem bcryptHash_ne_plain (p : String) : bcryptHash p ≠ p := by
  intro h
  have hl := congrArg String.length h
  have h7 : ("$2b$10$" : String).length = 7 := rfl
  rw [bcryptHash, String.length_append, h7] at hl
  omega

/-- C2: for every valid registration input (name of at least 3
characters, syntactically valid email, password satisfying all four
policy rules) whose email is not yet in the store, `register` succeeds
with the success message and the password stored in the created account
record is never the submitted plaintext. -/
theorem register_valid_input_succeeds (db : List Account) (newId : String)
    (dto : CreateUserDto)
    (_hname : minLength 3 (some dto.name) = true)
    (_hemail : isEmailModel dto.email = true)
    (_hlen : minLength 8 (some dto.password) = true)
    (_hletter : hasLetter dto.password = true)
    (_hdigit : hasDigit dto.password = true)
    (_hspecial : hasSpecial dto.password = true)
    (hfresh : findByEmail db dto.email = none) :
    registerMem db newId dto =
      (.ok "User registered successfully", db ++ [storedAccount newId dto]) ∧
    (storedAccount newId dto).password ≠ dto.password := by
  constructor
  · simp [registerMem, hfresh]
  · exact bcryptHash_ne_plain dto.password

/-- C2 witnessed at a concrete valid registration into an empty store. -/
theorem register_valid_input_succeeds_witness :
    registerMem [] "1" ⟨"Test User", "test@example.com", "Password123!"⟩ =
      (.ok "User registered successfully",
       [] ++ [storedAccount "1" ⟨"Test User", "test@example.com", "Password123!"⟩]) ∧
    (storedAccount "1" ⟨"Test User", "test@example.com", "Password123!"⟩).password ≠
      "Password123!" :=
  register_valid_input_succeeds [] "1" ⟨"Test User", "test@example.com", "Password123!"⟩
    (by decide) (by decide) (by decide) (by decide) (by decide) (by decide) rfl

/-- C7: a profile fetch with a token that verifies (valid signature,
unexpired) returns `findById` of the token's subject; whenever that
lookup finds an account, the response holds exactly that account's name
and email, and its serialization carries only the `name` and `email`
keys — never the stored password hash — whatever the store contains. -/
theorem getProfile_never_leaks_hash (db : List Account) (secret : String)
    (now : Nat) (t : Token) (c : Claims)
    (hv : verifyToken secret now t = .ok c) :
    getProfile db secret now t = .ok (findById db c.sub) ∧
    ∀ p, findById db c.sub = some p →
      (∃ u, u ∈ db ∧ u.id = c.sub ∧ p.name = u.name ∧ p.email = u.email) ∧
      ∀ kv, kv ∈ serializeProfile p → kv.1 = "name" ∨ kv.1 = "email" := by
  constructor
  · simp [getProfile, hv]
  · intro p hp
    rw [findById, Option.map_eq_some'] at hp
    obtain ⟨u, hu, hpu⟩ := hp
    constructor
    · refine ⟨u, List.mem_of_find?_eq_some hu, ?_, ?_, ?_⟩
      · have := List.find?_some hu
        simpa using this
      · rw [← hpu]
      · rw [← hpu]
    · intro kv hkv
      simp only [serializeProfile, List.mem_cons, List.not_mem_nil, or_false] at hkv
      rcases hkv with h | h
      · left; rw [h]
      · right; rw [h]

/-- C7 witnessed: a freshly issued token fetches the profile of the
stored account, and the serialized response has only `name`/`email`. -/
theorem getProfile_never_leaks_hash_witness :
    getProfile demoDb "secret" 10 (issueToken "secret" 0 3600 ⟨"1", "test@example.com"⟩) =
      .ok (findById demoDb "1") ∧
    ∀ p, findById demoDb "1" = some p →
      (∃ u, u ∈ demoDb ∧ u.id = "1" ∧ p.name = u.name ∧ p.email = u.email) ∧
      ∀ kv, kv ∈ serializeProfile p → kv.1 = "name" ∨ kv.1 = "email" :=
  getProfile_never_leaks_hash demoDb "secret" 10
    (issueToken "secret" 0 3600 ⟨"1", "test@example.com"⟩)
    ⟨"1", "test@example.com"⟩ rfl

/-- C9 counterexample: a body smuggling an `admin` field is rejected,
but not by naming the field — no `CreateUserDto` constraint survives the
pipe's groups filter, so the whole input gets the single generic
unknown-value error and no error's property is `admin`. -/
theorem unknown_field_not_named_cex :
    validateCreateUser
        [("name", "Test User"), ("email", "test@example.com"),
         ("password", "Valid1Password!"), ("admin", "true")] = [unknownValueErr] ∧
    ∀ e ∈ validateCreateUser
        [("name", "Test User"), ("email", "test@example.com"),
         ("password", "Valid1Password!"), ("admin", "true")],
      e.property ≠ some "admin" := by
  refine ⟨?_, ?_⟩ <;> decide

/-- C9 amended: every input carrying a field not declared on
`CreateUserDto` is rejected as invalid — the unknown field is never
silently dropped and the rest accepted — but not individually: with no
constraint of `CreateUserDto` surviving the groups filter,
class-validator's `forbidUnknownValues` guard rejects the whole input
with the single generic unknown-value error, which names no property. -/
theorem unknown_field_rejected_generically (input : List (String × String))
    (k v : String) (_hmem : (k, v) ∈ input)
    (_hk : declaredFields.contains k = false) :
    validateCreateUser input = [unknownValueErr] ∧
    validateCreateUser input ≠ [] ∧
    ∀ e ∈ validateCreateUser input, e.property ≠ some k := by
  have h1 : validateCreateUser input = [unknownValueErr] := rfl
  refine ⟨h1, by rw [h1]; simp, ?_⟩
  rw [h1]
  intro e he
  simp only [List.mem_singleton] at he
  subst he
  simp [unknownValueErr]

/-- C9 amended, witnessed at a body smuggling an `admin` field. -/
theorem unknown_field_rejected_generically_witness :
    validateCreateUser
        [("name", "Test User"), ("email", "test@example.com"),
         ("password", "Valid1Password!"), ("admin", "true")] = [unknownValueErr] ∧
    validateCreateUser
        [("name", "Test User"), ("email", "test@example.com"),
         ("password", "Valid1Password!"), ("admin", "true")] ≠ [] ∧
    ∀ e ∈ validateCreateUser
        [("name", "Test User"), ("email", "test@example.com"),
         ("password", "Valid1Password!"), ("admin", "true")],
      e.property ≠ some "admin" :=
  unknown_field_rejected_generically
    [("name", "Test User"), ("email", "test@example.com"),
     ("password", "Valid1Password!"), ("admin", "true")]
    "admin" "true" (by decide) (by decide)

/-- C5 counterexample: for a registration body with an empty name the
validation result is the single generic unknown-value error; the
existence-stage message `Name cannot be empty` the claim requires never
appears. -/
theorem empty_name_existence_message_cex :
    validateCreateUser
        [("name", ""), ("email", "test@example.com"),
         ("password", "Valid1Password!")] = [unknownValueErr] ∧
    ∀ e ∈ validateCreateUser
        [("name", ""), ("email", "test@example.com"),
         ("password", "Valid1Password!")],
      "Name cannot be empty" ∉ e.messages := by
  refine ⟨?_, ?_⟩ <;> decide

/-- C5 amended: for every registration input whose name field is empty,
no name message appears at all — neither the existence-stage
`Name cannot be empty` nor the format-stage
`Name must be at least 3 characters long` — because none of
`CreateUserDto`'s group-less constraints survives the pipe's groups
option; the whole input is rejected with the generic unknown-value
error. -/
theorem empty_name_no_message (input : List (String × String))
    (_h : lookupField input "name" = some "") :
    validateCreateUser input = [unknownValueErr] ∧
    ∀ e ∈ validateCreateUser input,
      "Name cannot be empty" ∉ e.messages ∧
      "Name must be at least 3 characters long" ∉ e.messages := by
  have h1 : validateCreateUser input = [unknownValueErr] := rfl
  refine ⟨h1, ?_⟩
  rw [h1]
  intro e he
  simp only [List.mem_singleton] at he
  subst he
  exact ⟨by decide, by decide⟩

/-- C5 amended, witnessed at a concrete body with an empty name. -/
theorem empty_name_no_message_witness :
    validateCreateUser
        [("name", ""), ("email", "test@example.com"),
         ("password", "Valid1Password!")] = [unknownValueErr] ∧
    ∀ e ∈ validateCreateUser
        [("name", ""), ("email", "test@example.com"),
         ("password", "Valid1Password!")],
      "Name cannot be empty" ∉ e.messages ∧
      "Name must be at least 3 characters long" ∉ e.messages :=
  empty_name_no_message
    [("name", ""), ("email", "test@example.com"), ("password", "Valid1Password!")]
    rfl

/-- C4 counterexample: `"abcdefgh"` violates two format rules (no digit,
no special character), yet the validation result is the single generic
unknown-value error — the digit-rule message the claim requires never
appears. -/
theorem password_collects_all_violations_cex :
    hasDigit "abcdefgh" = false ∧ hasSpecial "abcdefgh" = false ∧
    validateCreateUser
        [("name", "Test User"), ("email", "test@example.com"),
         ("password", "abcdefgh")] = [unknownValueErr] ∧
    ∀ e ∈ validateCreateUser
        [("name", "Test User"), ("email", "test@example.com"),
         ("password", "abcdefgh")],
      "Password must contain at least one number" ∉ e.messages := by
  refine ⟨?_, ?_, ?_, ?_⟩ <;> decide

/-- C4 amended: for every input whose password is present but violates
more than one of the format rules, the validation result for the
password field contains no policy message at all: `CreateUserDto`'s
group-less constraints are all filtered out by the pipe's groups option
and the whole input is rejected with the single generic unknown-value
error. -/
theorem password_multi_violation_no_message (input : List (String × String))
    (v : String) (_hv : lookupField input "password" = some v)
    (_h2 : 2 ≤ (violatedFormatMessages v).length) :
    validateCreateUser input = [unknownValueErr] ∧
    ∀ e ∈ validateCreateUser input,
      ∀ r : PasswordFormatRule, r.message ∉ e.messages := by
  have h1 : validateCreateUser input = [unknownValueErr] := rfl
  refine ⟨h1, ?_⟩
  rw [h1]
  intro e he r
  simp only [List.mem_singleton] at he
  subst he
  cases r <;> decide

/-- C4 amended, witnessed at `"abcdefgh"` (two violated format rules, no
reported policy message). -/
theorem password_multi_violation_no_message_witness :
    2 ≤ (violatedFormatMessages "abcdefgh").length ∧
    (validateCreateUser
        [("name", "Test User"), ("email", "test@example.com"),
         ("password", "abcdefgh")] = [unknownValueErr] ∧
     ∀ e ∈ validateCreateUser
        [("name", "Test User"), ("email", "test@example.com"),
         ("password", "abcdefgh")],
       ∀ r : PasswordFormatRule, r.message ∉ e.messages) :=
  ⟨by decide,
   password_multi_violation_no_message
     [("name", "Test User"), ("email", "test@example.com"),
      ("password", "abcdefgh")]
     "abcdefgh" rfl (by decide)⟩

/-- C6, evaluated at the failing input: `"password123"` violates exactly
the special-character rule, yet the pipeline emits the single generic
unknown-value error and never the rule's message — contradicting the
repository's own tests, which assert that message under this very pipe
configuration.  The slip is `main.ts` passing
`groups: ['existence', 'format']` while `CreateUserDto`'s decorators
carry no groups, so no password constraint ever runs. -/
theorem password_rule_message_never_emitted_bug :
    violatesOnly "password123" .special = true ∧
    validateCreateUser
        [("name", "Test User"), ("email", "test@example.com"),
         ("password", "password123")] = [unknownValueErr] ∧
    ∀ e ∈ validateCreateUser
        [("name", "Test User"), ("email", "test@example.com"),
         ("password", "password123")],
      "Password must contain at least one special character" ∉ e.messages := by
  refine ⟨?_, ?_, ?_⟩ <;> decide

end UserApp
